import Mathlib

/-!
Shallow embedding of the `spaces_download` repository (Python).

The embedding follows the newest draft of each component:
`src/task.py` (Download/Task, ProgressTracker, DownloadManager),
`src/observer.py` (DownloadCompleteObserver, Observable),
`src/download.py` and `src/server/app.py` (the concrete
`attach`/`detach`/`notify` implementations of the `Observable`
interface that `task.py`'s `Download` inherits),
`src/worker.py` (Connection, ConnectionPool) and
`src/config.py` (Boto3Config).

Modelling conventions:
* Python attributes `_size`, `_bytes_transferred`, `_started`,
  `_observers` are fields `size`, `bytes_transferred`, `started`,
  `observers`.
* A Python attribute that may never be assigned (because the assigning
  statement raised) is modelled by an explicit `unset` state; accessing
  it raises `AttributeError`.
* Python exceptions are values of `PyErr`; a Python method that can
  raise returns `Except PyErr _` (or carries an `Option PyErr`).
* Machine integers are `Int` (Python ints are unbounded).  Python float
  arithmetic in `update_progress_map` is modelled over `Rat` and
  `round(x, 2)` is abstracted away: no claim depends on the rendered
  value, only on whether the computation faults and which map key is
  written.
* The threading lock in `Download.progress` is modelled as a no-op:
  the embedding is the sequential semantics of one worker executing a
  task, which is the setting of every claim.
-/

namespace SpacesDownload

/-- Python exception kinds that the embedded code can raise. -/
inductive PyErr where
  | attributeError
  | zeroDivisionError
  | typeError
  | valueError
  deriving DecidableEq, Repr

/-- State of the `_size` attribute of a `Download` (task.py line 66):
`unset` means the attribute was never assigned (the `head_object` probe
raised and the assignment was skipped), `pynone` means it was assigned
Python `None` (the response had no `ContentLength`), `val n` means it
holds the integer `n`. -/
inductive SizeAttr where
  | unset
  | pynone
  | val (n : Int)
  deriving DecidableEq, Repr

/-- An observer instance attached to a Download.  `completeOb` is a
`DownloadCompleteObserver(move_to_complete_queue)` (observer.py lines
22-32, callback from task.py lines 124-126); `progressOb` is a
`ProgressObserver(update_progress_map)` (imported in task.py line 13,
callback task.py lines 128-131).  The `oid` tag models Python object
identity: two distinct instances of the same class compare unequal. -/
inductive Ob where
  | completeOb (oid : Nat)
  | progressOb (oid : Nat)
  deriving DecidableEq, Repr

/-- `Contract` (server/contract.py lines 3-19): immutable request
descriptor. -/
structure Contract where
  id : String
  bucket : String
  key : String
  filename : String
  extra_args : List (String × String)
  deriving DecidableEq, Repr

/-- `Download` (task.py lines 29-75 for the fields and `progress`/`start`,
download.py lines 45 and 61-72 for `_observers`/`attach`/`detach`/`notify`).
-/
structure Download where
  id : String
  bucket : String
  key : String
  filename : String
  extra_args : List (String × String)
  size : SizeAttr
  bytes_transferred : Int
  started : Option Int
  observers : List Ob
  deriving DecidableEq, Repr

/-- `Download.__init__` (task.py lines 46-55): copies the contract's
fields, zeroes the byte counter; `_size` and `_started` are not assigned
yet; the observer list starts empty (download.py line 45). -/
def Download.fromContract (c : Contract) : Download :=
  { id := c.id
    bucket := c.bucket
    key := c.key
    filename := c.filename
    extra_args := c.extra_args
    size := SizeAttr.unset
    bytes_transferred := 0
    started := none
    observers := [] }

/-- `Download.attach` (download.py lines 61-63): `self._observers.append(observer)`. -/
def Download.attach (t : Download) (o : Ob) : Download :=
  { t with observers := t.observers ++ [o] }

/-- `Download.detach` (download.py lines 65-67):
`self._observers.remove(observer)` — Python `list.remove` deletes the
first occurrence and raises `ValueError` when the element is absent. -/
def Download.detach (t : Download) (o : Ob) : Except PyErr Download :=
  if o ∈ t.observers then Except.ok { t with observers := t.observers.erase o }
  else Except.error PyErr.valueError

/-- `Connection` (worker.py lines 22-36).  Only the loop-control state
is embedded: `running` is the `terminate_on` boolean copied by value
from the pool at construction (worker.py line 30). -/
structure Connection where
  running : Bool
  deriving DecidableEq, Repr

/-- Outcome of one iteration of `Connection.run`'s loop condition
(worker.py line 33). -/
inductive ConnStepR where
  | exit
  | claimed (t : Download) (rest : List Download)
  deriving DecidableEq, Repr

/-- One check of `while self.running and self.from_queue.qsize() > 0`
(worker.py lines 33-34): when the condition holds the head Task is
popped and claimed, otherwise the loop exits. -/
def Connection.step (c : Connection) (q : List Download) : ConnStepR :=
  if c.running then
    match q with
    | [] => ConnStepR.exit
    | t :: rest => ConnStepR.claimed t rest
  else ConnStepR.exit

/-- The whole of `Connection.run` (worker.py lines 32-36) in the
sequential one-worker semantics: returns the list of Tasks the loop
claims (each is then executed via `download.start(self.client)`). -/
def Connection.run (c : Connection) : List Download → List Download
  | [] => []
  | t :: rest => if c.running then t :: Connection.run c rest else []

/-- `ConnectionPool` (worker.py lines 38-60): `running` flag plus the
fixed worker list built at construction. -/
structure ConnectionPool where
  running : Bool
  worker_pool : List Connection
  deriving DecidableEq, Repr

/-- `ConnectionPool.__init__` (worker.py lines 42-45): sets
`running = True` and builds `max_workers` Connections, each receiving
`terminate_on=self.running`, i.e. a by-value copy of the boolean. -/
def ConnectionPool.init (max_workers : Nat) : ConnectionPool :=
  { running := true
    worker_pool := List.replicate max_workers { running := true } }

/-- `ConnectionPool.start` (worker.py lines 54-57): sets `running = True`
(thread launching has no queue-state effect). -/
def ConnectionPool.start (p : ConnectionPool) : ConnectionPool :=
  { p with running := true }

/-- `ConnectionPool.stop` (worker.py lines 59-60): the entire body is
`self.running = False`; the workers are not signalled and not joined. -/
def ConnectionPool.stop (p : ConnectionPool) : ConnectionPool :=
  { p with running := false }

/-- Assignment `d[k] = v` on a Python dict modelled as an association
list: overwrite the existing entry for `k` or append a fresh one. -/
def dictSet {α : Type} : List (String × α) → String → α → List (String × α)
  | [], k, v => [(k, v)]
  | (k', v') :: rest, k, v =>
    if k' = k then (k, v) :: rest else (k', v') :: dictSet rest k v

/-- `DownloadManager` (task.py lines 104-118): the three FIFO queues,
the shared progress map and the connection pool. -/
structure DownloadManager where
  download_queue : List Download
  ready_queue : List Download
  complete_queue : List Download
  progress_map : List (String × (Rat × Rat))
  connection_pool : ConnectionPool
  deriving DecidableEq, Repr

/-- `DownloadManager.__init__` (task.py lines 112-118). -/
def DownloadManager.init (max_workers : Nat) : DownloadManager :=
  { download_queue := []
    ready_queue := []
    complete_queue := []
    progress_map := []
    connection_pool := ConnectionPool.init max_workers }

/-- `DownloadManager.submit` (task.py lines 120-122): wraps the Contract
in exactly one new `Download` and puts it on the pending queue. -/
def DownloadManager.submit (m : DownloadManager) (c : Contract) : DownloadManager :=
  { m with download_queue := m.download_queue ++ [Download.fromContract c] }

/-- `DownloadManager.move_to_complete_queue` (task.py lines 124-126). -/
def DownloadManager.move_to_complete_queue (m : DownloadManager) (t : Download) :
    DownloadManager :=
  { m with complete_queue := m.complete_queue ++ [t] }

/-- `DownloadManager.update_progress_map` (task.py lines 128-131):
`percentage = round((task._bytes_transferred / task._size) * 100, 2)` is
evaluated first (AttributeError when `_size` was never assigned,
TypeError when it is `None`, ZeroDivisionError when it is 0), then
`transfer_rate` (AttributeError when `_started` was never assigned,
ZeroDivisionError when `time.time()` equals `_started`), then the map
write keyed by the task id.  `now` is the value of `time.time()`. -/
def DownloadManager.update_progress_map (now : Int) (m : DownloadManager)
    (t : Download) : Except PyErr DownloadManager :=
  match t.size with
  | SizeAttr.unset => Except.error PyErr.attributeError
  | SizeAttr.pynone => Except.error PyErr.typeError
  | SizeAttr.val n =>
    if n = 0 then Except.error PyErr.zeroDivisionError
    else
      match t.started with
      | none => Except.error PyErr.attributeError
      | some s =>
        if now - s = 0 then Except.error PyErr.zeroDivisionError
        else
          let percentage : Rat := ((t.bytes_transferred : Rat) / (n : Rat)) * 100
          let transfer_rate : Rat :=
            ((t.bytes_transferred : Rat) / ((now : Rat) - (s : Rat))) / 1000000
          Except.ok
            { m with progress_map := dictSet m.progress_map t.id (percentage, transfer_rate) }

/-- `DownloadCompleteObserver.update` (observer.py lines 29-32) with the
callback `move_to_complete_queue` wired in by task.py line 135:
`if download._bytes_transferred == download._size: self.callback(download)`.
Reading `_size` raises `AttributeError` when it was never assigned;
comparing an int with Python `None` is `False`; otherwise exact integer
equality.  There is no arming guard: the callback fires on every update
at which the comparison is true. -/
def completeUpdate (t : Download) (m : DownloadManager) : Except PyErr DownloadManager :=
  match t.size with
  | SizeAttr.unset => Except.error PyErr.attributeError
  | SizeAttr.pynone => Except.ok m
  | SizeAttr.val n =>
    if t.bytes_transferred = n then Except.ok (m.move_to_complete_queue t)
    else Except.ok m

/-- Dispatch of `observer.update(download)` per observer class.
`completeOb` is `DownloadCompleteObserver.update` (observer.py lines
29-32).  `progressOb` is Modelled from the spec: the class
`ProgressObserver` is imported by task.py line 13 but absent from
observer.py; spec section 4.2 says the progress-observer's `update`
fires on every notification, invoking its callback, which task.py line
136 binds to `update_progress_map`. -/
def Ob.update (now : Int) : Ob → Download → DownloadManager → Except PyErr DownloadManager
  | Ob.completeOb _, t, m => completeUpdate t m
  | Ob.progressOb _, t, m => DownloadManager.update_progress_map now m t

/-- The `for observer in self._observers: observer.update(self)` loop of
`Download.notify` (download.py lines 69-72), started from an explicit
observer list.  There is no try/except: the first raising observer
stops the loop, the effects made so far persist, and the exception
propagates (returned as `some e`). -/
def notifyFrom (now : Int) (t : Download) :
    List Ob → DownloadManager → DownloadManager × Option PyErr
  | [], m => (m, none)
  | o :: rest, m =>
    match Ob.update now o t m with
    | Except.ok m' => notifyFrom now t rest m'
    | Except.error e => (m, some e)

/-- `Download.notify` (download.py lines 69-72). -/
def Download.notify (now : Int) (t : Download) (m : DownloadManager) :
    DownloadManager × Option PyErr :=
  notifyFrom now t t.observers m

/-- `Download.progress` (task.py lines 57-61): under the lock, add the
chunk delta to `_bytes_transferred`, then `notify()`.  The increment
happens before `notify`, so it persists even when an observer raises;
the exception then propagates out of the callback. -/
def Download.progress (now : Int) (new_bytes : Int) (t : Download)
    (m : DownloadManager) : Download × DownloadManager × Option PyErr :=
  let t' := { t with bytes_transferred := t.bytes_transferred + new_bytes }
  let r := Download.notify now t' m
  (t', r.1, r.2)

/-- The sequence of invocations of the `Callback=self.progress` hook
during `client.download_file` (task.py lines 71-75): one call per chunk
delta; an exception raised by the callback aborts the transfer.  The
clock advances by one tick per chunk. -/
def runProgress (now : Int) : List Int → Download → DownloadManager →
    Download × DownloadManager × Option PyErr
  | [], t, m => (t, m, none)
  | d :: ds, t, m =>
    match (Download.progress now d t m).2.2 with
    | none =>
      runProgress (now + 1) ds (Download.progress now d t m).1
        (Download.progress now d t m).2.1
    | some e =>
      ((Download.progress now d t m).1, (Download.progress now d t m).2.1, some e)

/-- The storage-client collaborator as seen by `Download.start`:
the `head_object` size probe (`Except.error` models a raised exception,
`Option Int` the `.get('ContentLength')` result) and the chunk deltas
its `download_file` delivers to the progress callback. -/
structure Client where
  headObject : String → String → Except Unit (Option Int)
  chunks : List Int

/-- `Download.start` (task.py lines 63-75): try the size probe — on
success assign `_size` (the probe is issued with `Key=self.filename`,
exactly as the source does), on exception leave it unassigned; record
`_started`; then run the transfer, feeding each chunk delta to
`progress`. -/
def Download.start (now : Int) (client : Client) (t : Download)
    (m : DownloadManager) : Download × DownloadManager × Option PyErr :=
  let t1 :=
    match client.headObject t.bucket t.filename with
    | Except.error _ => t
    | Except.ok none => { t with size := SizeAttr.pynone }
    | Except.ok (some n) => { t with size := SizeAttr.val n }
  let t2 := { t1 with started := some now }
  runProgress (now + 1) client.chunks t2 m

/-- `DownloadManager.attach_observers` (task.py lines 133-140): attach a
fresh `DownloadCompleteObserver(self.move_to_complete_queue)` and a
fresh `ProgressObserver(self.update_progress_map)`, in that order. -/
def DownloadManager.attach_observers (t : Download) : Download :=
  (t.attach (Ob.completeOb 0)).attach (Ob.progressOb 1)

/-- The drain loop of `DownloadManager.start` (task.py lines 145-149):
`for _ in range(self.download_queue.qsize())` — the count is read once;
each iteration pops the head of the pending queue, attaches the two
observers, and pushes the task onto the ready queue. -/
def drainLoop : Nat → DownloadManager → DownloadManager
  | 0, m => m
  | n + 1, m =>
    match m.download_queue with
    | [] => drainLoop n m
    | t :: rest =>
      drainLoop n
        { m with
          download_queue := rest
          ready_queue := m.ready_queue ++ [DownloadManager.attach_observers t] }

/-- `DownloadManager.start` (task.py lines 142-156): drain the pending
queue once, then start the ProgressTracker (a display-only thread with
no queue-state effect, not further modelled) and the connection pool. -/
def DownloadManager.start (m : DownloadManager) : DownloadManager :=
  let m' := drainLoop m.download_queue.length m
  { m' with connection_pool := m'.connection_pool.start }

/-! ### Configuration loading (`src/config.py`)

A configuration file is modelled by its list of lines
(`f.read().splitlines()`), each line a `List Char`; an absent file is
`Option.none`. -/

/-- Python `line.split('=')` (config.py line 30): split on every `'='`,
keeping empty pieces; a string with `k` occurrences of `'='` yields
`k + 1` pieces. -/
def splitOnEq : List Char → List (List Char)
  | [] => [[]]
  | ch :: rest =>
    let r := splitOnEq rest
    if ch = '=' then [] :: r else (ch :: r.headI) :: r.tail

/-- The accumulation `env += line.split('=')` over all lines
(config.py lines 29-30). -/
def flattenSplits : List (List Char) → List (List Char)
  | [] => []
  | l :: ls => splitOnEq l ++ flattenSplits ls

/-- Python `dict(zip(it, it))` over a single iterator (config.py lines
31-32): consecutive elements are paired up, a trailing odd element is
dropped. -/
def pairUp {α : Type} : List α → List (α × α)
  | a :: b :: t => (a, b) :: pairUp t
  | _ => []

/-- The key/value pairs `load_config` builds from the file's lines
(config.py lines 27-32), in insertion order (duplicates kept; the dict
they populate is read through `pyDictGet`). -/
def configPairs (lines : List (List Char)) : List (List Char × List Char) :=
  pairUp (flattenSplits lines)

/-- `Boto3Config.load_config` (config.py lines 24-34): on
`FileNotFoundError` the absence is printed and the function implicitly
returns `None`; otherwise the parsed dict (as its insertion-ordered pair
list) is returned. -/
def load_config : Option (List (List Char)) → Option (List (List Char × List Char))
  | none => none
  | some lines => some (configPairs lines)

/-- `dict.get(k)` on a Python dict built from an insertion-ordered pair
list: the value of the last pair with key `k`, or `None` when absent. -/
def pyDictGet {α : Type} (ps : List (List Char × α)) (k : List Char) : Option α :=
  ps.reverse.lookup k

/-- The attribute set of `Boto3Config` (config.py lines 13-19). -/
structure Boto3Config where
  bucket_name : Option (List Char)
  access_key : Option (List Char)
  secret_key : Option (List Char)
  region_name : Option (List Char)
  endpoint_url : Option (List Char)
  deriving DecidableEq, Repr

/-- `Boto3Config.__init__` (config.py lines 13-19): `config` is the
result of `load_config`; when the file was absent that is `None` and the
very first `config.get('SPACES_NAME')` raises `AttributeError`;
otherwise the five attributes are populated via `dict.get`. -/
def Boto3Config.init (file : Option (List (List Char))) : Except PyErr Boto3Config :=
  match load_config file with
  | none => Except.error PyErr.attributeError
  | some cfg =>
    Except.ok
      { bucket_name := pyDictGet cfg "SPACES_NAME".toList
        access_key := pyDictGet cfg "ACCESS_KEY".toList
        secret_key := pyDictGet cfg "SECRET_KEY".toList
        region_name := pyDictGet cfg "REGION_NAME".toList
        endpoint_url := pyDictGet cfg "ENDPOINT".toList }

/-! ## Concrete sample data used by witnesses and counterexamples -/

/-- A sample Contract in the shape produced by `ContractFactory.new`. -/
def cSample : Contract :=
  { id := "abc12345"
    bucket := "karim-storage"
    key := "ep1.mkv"
    filename := "dl/ep1.mkv"
    extra_args := [] }

/-! ## C1 -/

/-- Running the drain loop of `DownloadManager.start` for the length of
the pending queue empties it and appends every pending Task, with the
two observers attached, to the ready queue in order. -/
lemma drainLoop_drains :
    ∀ (q : List Download) (m : DownloadManager), m.download_queue = q →
      drainLoop q.length m =
        { m with
          download_queue := []
          ready_queue := m.ready_queue ++ q.map DownloadManager.attach_observers } := by
  intro q
  induction q with
  | nil =>
    intro m h
    cases m
    simp_all [drainLoop]
  | cons t rest ih =>
    intro m h
    simp only [List.length_cons, drainLoop, h]
    rw [ih _ rfl]
    cases m
    simp_all [List.append_assoc]

/-- C1: every Contract passed to `DownloadManager.submit` yields exactly
one new Task, copying the Contract's id, bucket, key, filename and
extra_args, appended to the pending queue; `DownloadManager.start`
drains the whole pending queue into the ready queue, attaching the
completion-observer and the progress-observer to each Task before the
move, and drops no submitted Task. -/
theorem c1_submit_start_drains (m : DownloadManager) (c : Contract) (t : Download)
    (ht : t ∈ m.download_queue) :
    (m.submit c).download_queue = m.download_queue ++ [Download.fromContract c] ∧
    (Download.fromContract c).id = c.id ∧
    (Download.fromContract c).bucket = c.bucket ∧
    (Download.fromContract c).key = c.key ∧
    (Download.fromContract c).filename = c.filename ∧
    (Download.fromContract c).extra_args = c.extra_args ∧
    m.start.download_queue = [] ∧
    m.start.ready_queue =
      m.ready_queue ++ m.download_queue.map DownloadManager.attach_observers ∧
    DownloadManager.attach_observers t ∈ m.start.ready_queue ∧
    Ob.completeOb 0 ∈ (DownloadManager.attach_observers t).observers ∧
    Ob.progressOb 1 ∈ (DownloadManager.attach_observers t).observers := by
  have hd := drainLoop_drains m.download_queue m rfl
  refine ⟨rfl, rfl, rfl, rfl, rfl, rfl, ?_, ?_, ?_, ?_, ?_⟩
  · simp [DownloadManager.start, hd]
  · simp [DownloadManager.start, hd]
  · simp only [DownloadManager.start, hd]
    simp only [List.mem_append, List.mem_map]
    exact Or.inr ⟨t, ht, rfl⟩
  · simp [DownloadManager.attach_observers, Download.attach]
  · simp [DownloadManager.attach_observers, Download.attach]

/-- The Download built from `cSample`, sitting alone in the pending
queue of a fresh manager. -/
def c1Task : Download := Download.fromContract cSample

/-- A manager whose pending queue holds exactly `c1Task`. -/
def c1Mgr : DownloadManager :=
  { DownloadManager.init 1 with download_queue := [c1Task] }

/-- Witness for C1 at a concrete manager holding one pending Task. -/
theorem c1_submit_start_drains_witness :
    (c1Mgr.submit cSample).download_queue =
      c1Mgr.download_queue ++ [Download.fromContract cSample] ∧
    (Download.fromContract cSample).id = cSample.id ∧
    (Download.fromContract cSample).bucket = cSample.bucket ∧
    (Download.fromContract cSample).key = cSample.key ∧
    (Download.fromContract cSample).filename = cSample.filename ∧
    (Download.fromContract cSample).extra_args = cSample.extra_args ∧
    c1Mgr.start.download_queue = [] ∧
    c1Mgr.start.ready_queue =
      c1Mgr.ready_queue ++ c1Mgr.download_queue.map DownloadManager.attach_observers ∧
    DownloadManager.attach_observers c1Task ∈ c1Mgr.start.ready_queue ∧
    Ob.completeOb 0 ∈ (DownloadManager.attach_observers c1Task).observers ∧
    Ob.progressOb 1 ∈ (DownloadManager.attach_observers c1Task).observers :=
  c1_submit_start_drains c1Mgr cSample c1Task (List.mem_singleton.mpr rfl)

/-! ## C6 -/

/-- The loop body of `Connection.run` for a worker whose flag is true
processes the whole queue. -/
lemma conn_run_true (q : List Download) :
    Connection.run { running := true } q = q := by
  induction q with
  | nil => rfl
  | cons t rest ih => simp [Connection.run, ih]

/-- The loop body of `Connection.run` for a worker whose flag is false
claims nothing. -/
lemma conn_run_false (q : List Download) :
    Connection.run { running := false } q = [] := by
  cases q <;> simp [Connection.run]

/-- C6 counterexample: with the worker's running flag still true (the
pool is running) and the ready queue momentarily empty,
`Connection.step` exits the loop at once — no bounded-wait pop is even
attempted — refuting "a Connection does not terminate merely because the
ready queue is momentarily empty while the pool is running". -/
theorem c6_conn_exit_while_running_cex :
    Connection.step { running := true } ([] : List Download) = ConnStepR.exit ∧
    ({ running := true } : Connection).running = true :=
  ⟨rfl, rfl⟩

/-- C6 amended: the `Connection.run` loop exits exactly when its
(construction-time copy of the) running flag is false or the ready queue
is observed empty; the pop is an unconditional `queue.get()` guarded by
the `qsize() > 0` check rather than a bounded wait; while the flag is
true and the queue is non-empty the loop does claim the head Task, and a
true-flagged Connection drains the entire queue. -/
theorem c6_conn_loop_amended (c : Connection) (q : List Download) :
    (c.step q = ConnStepR.exit ↔ (c.running = false ∨ q = [])) ∧
    (c.running = true → ∀ t rest, q = t :: rest → c.step q = ConnStepR.claimed t rest) ∧
    (c.running = true → Connection.run c q = q) ∧
    (c.running = false → Connection.run c q = []) := by
  obtain ⟨r⟩ := c
  cases r
  · refine ⟨?_, ?_, ?_, ?_⟩
    · cases q <;> simp [Connection.step]
    · intro h; exact absurd h (by simp)
    · intro h; exact absurd h (by simp)
    · intro _; exact conn_run_false q
  · refine ⟨?_, ?_, ?_, ?_⟩
    · cases q <;> simp [Connection.step]
    · intro _ t rest hq; subst hq; simp [Connection.step]
    · intro _; exact conn_run_true q
    · intro h; exact absurd h (by simp)

/-- Witness for C6 at a concrete running worker and one-element queue. -/
theorem c6_conn_loop_amended_witness :
    Connection.run { running := true } [Download.fromContract cSample] =
      [Download.fromContract cSample] :=
  (c6_conn_loop_amended { running := true } [Download.fromContract cSample]).2.2.1 rfl

/-! ## C7 -/

/-- C7 counterexample: after `ConnectionPool.stop()` on a fresh
two-worker pool, both Connections still carry `running = true` — the
stop signal is a write to the pool's own flag only, never observed by
any Connection, and no join of any worker occurs (the body of `stop` is
exactly `self.running = False`). -/
theorem c7_pool_stop_cex :
    ((ConnectionPool.init 2).stop).running = false ∧
    ((ConnectionPool.init 2).stop).worker_pool =
      [{ running := true }, { running := true }] :=
  ⟨rfl, rfl⟩

/-- C7 amended: `ConnectionPool.stop` sets only the pool's own running
flag to false and leaves every worker Connection untouched; the workers'
flags are by-value copies of `True` made at construction, so no
Connection observes the stop signal and `stop()` performs no join. -/
theorem c7_pool_stop_amended (p : ConnectionPool) (n : Nat) :
    (p.stop).running = false ∧
    (p.stop).worker_pool = p.worker_pool ∧
    (ConnectionPool.init n).worker_pool = List.replicate n { running := true } ∧
    (∀ w ∈ ((ConnectionPool.init n).stop).worker_pool, w.running = true) := by
  refine ⟨rfl, rfl, rfl, ?_⟩
  intro w hw
  simp only [ConnectionPool.stop, ConnectionPool.init] at hw
  rw [List.eq_of_mem_replicate hw]

/-- Witness for C7 at a concrete one-worker pool. -/
theorem c7_pool_stop_amended_witness :
    ({ running := true } : Connection).running = true :=
  (c7_pool_stop_amended (ConnectionPool.init 1) 1).2.2.2 { running := true }
    (by simp [ConnectionPool.init, ConnectionPool.stop])

/-! ## C2 -/

/-- No step of the progress-callback sequence modifies `_size`. -/
lemma runProgress_size (ds : List Int) :
    ∀ (now : Int) (t : Download) (m : DownloadManager),
      (runProgress now ds t m).1.size = t.size := by
  induction ds with
  | nil => intro now t m; rfl
  | cons d ds ih =>
    intro now t m
    simp only [runProgress]
    cases hnr : (Download.progress now d t m).2.2 with
    | none => simp only [hnr]; rw [ih]; rfl
    | some e => simp only [hnr]; rfl

/-- The byte counter after a progress-callback sequence is bounded below
by its initial value and above by the initial value plus the sum of all
deltas, provided the deltas are non-negative (the sequence may stop
early when an observer raises, which only lowers the final value). -/
lemma runProgress_bytes_le (ds : List Int) :
    ∀ (now : Int) (t : Download) (m : DownloadManager), (∀ d ∈ ds, 0 ≤ d) →
      t.bytes_transferred ≤ (runProgress now ds t m).1.bytes_transferred ∧
      (runProgress now ds t m).1.bytes_transferred ≤ t.bytes_transferred + ds.sum := by
  induction ds with
  | nil => intro now t m _; simp [runProgress]
  | cons d ds ih =>
    intro now t m h
    have hd : (0:Int) ≤ d := h d (List.mem_cons_self d ds)
    have hds : ∀ x ∈ ds, (0:Int) ≤ x := fun x hx => h x (List.mem_cons_of_mem d hx)
    have hsum : (0:Int) ≤ ds.sum := List.sum_nonneg hds
    have hb : (Download.progress now d t m).1.bytes_transferred
        = t.bytes_transferred + d := rfl
    simp only [runProgress]
    cases hnr : (Download.progress now d t m).2.2 with
    | none =>
      simp only [hnr]
      obtain ⟨ih1, ih2⟩ :=
        ih (now + 1) (Download.progress now d t m).1 (Download.progress now d t m).2.1 hds
      constructor
      · refine le_trans ?_ ih1
        rw [hb]; linarith
      · refine le_trans ih2 ?_
        rw [hb, List.sum_cons]; linarith
    | some e =>
      simp only [hnr]
      constructor
      · show t.bytes_transferred ≤ (Download.progress now d t m).1.bytes_transferred
        rw [hb]; linarith
      · show (Download.progress now d t m).1.bytes_transferred
            ≤ t.bytes_transferred + (d :: ds).sum
        rw [hb, List.sum_cons]; linarith

/-- C2 counterexample: a Task whose probed size is 1 byte. -/
def c2Task : Download := { Download.fromContract cSample with size := SizeAttr.val 1 }

/-- C2 counterexample: with `_size = 1` already set, a single
progress-callback invocation with the non-negative delta 2 drives
`_bytes_transferred` to 2 > 1 — `Download.progress` adds the delta
without any bound check, so "never exceeds size once size has been set"
fails as stated. -/
theorem c2_exceeds_size_cex :
    c2Task.size = SizeAttr.val 1 ∧
    (Download.progress 1 2 c2Task (DownloadManager.init 1)).1.bytes_transferred = 2 ∧
    ¬ (Download.progress 1 2 c2Task (DownloadManager.init 1)).1.bytes_transferred ≤ 1 := by
  refine ⟨rfl, rfl, by decide⟩

/-- C2 amended: across every progress-callback sequence with
non-negative deltas the byte counter is monotonically non-decreasing and
`_size` is never modified (so a single `start` assigns it at most once:
exactly the probe's assignment, or none when the probe raises); the
counter stays at most `size` only under the additional assumption that
the cumulative deltas do not exceed it — the code performs no bound
check of its own. -/
theorem c2_progress_monotone_amended (now : Int) (ds : List Int) (t : Download)
    (m : DownloadManager) (h : ∀ d ∈ ds, 0 ≤ d) :
    t.bytes_transferred ≤ (runProgress now ds t m).1.bytes_transferred ∧
    (runProgress now ds t m).1.size = t.size ∧
    (∀ n : Int, t.size = SizeAttr.val n → t.bytes_transferred + ds.sum ≤ n →
      (runProgress now ds t m).1.bytes_transferred ≤ n) ∧
    (∀ client : Client, client.headObject t.bucket t.filename = Except.error () →
      (Download.start now client t m).1.size = t.size) ∧
    (∀ (client : Client) (n : Int),
      client.headObject t.bucket t.filename = Except.ok (some n) →
      (Download.start now client t m).1.size = SizeAttr.val n) := by
  obtain ⟨h1, h2⟩ := runProgress_bytes_le ds now t m h
  refine ⟨h1, runProgress_size ds now t m, fun n _ hle => le_trans h2 hle, ?_, ?_⟩
  · intro client hc
    simp only [Download.start, hc]
    rw [runProgress_size]
  · intro client n hc
    simp only [Download.start, hc]
    rw [runProgress_size]

/-- C2 witness Task: probed size 3 bytes. -/
def c2wTask : Download := { Download.fromContract cSample with size := SizeAttr.val 3 }

/-- Witness for C2 (amended) at delta sequence `[1, 1]` against size 3. -/
theorem c2_progress_monotone_amended_witness :
    c2wTask.bytes_transferred
      ≤ (runProgress 0 [1, 1] c2wTask (DownloadManager.init 1)).1.bytes_transferred ∧
    (runProgress 0 [1, 1] c2wTask (DownloadManager.init 1)).1.bytes_transferred ≤ 3 := by
  have h := c2_progress_monotone_amended 0 [1, 1] c2wTask (DownloadManager.init 1) (by decide)
  exact ⟨h.1, h.2.2.1 3 rfl (by decide)⟩

/-! ## C3 -/

/-- C3 counterexample Task: size 1, one completion-observer attached. -/
def c3Task : Download :=
  { Download.fromContract cSample with
    size := SizeAttr.val 1
    started := some 0
    observers := [Ob.completeOb 0] }

/-- C3 counterexample: delivering the chunk deltas `[1, 0]` to a Task of
size 1 produces two notify calls at the completion boundary
(`bytes_transferred = size = 1` both times), and the completion
observer's callback `move_to_complete_queue` runs on each of them: the
complete queue ends with two entries for the same Task, refuting "the
callback is invoked at most once per Task". -/
theorem c3_complete_fires_twice_cex :
    ((runProgress 1 [1, 0] c3Task (DownloadManager.init 1)).2.1.complete_queue).length = 2 ∧
    ¬ ((runProgress 1 [1, 0] c3Task (DownloadManager.init 1)).2.1.complete_queue).length ≤ 1 := by
  exact ⟨rfl, by decide⟩

/-- Every zero-delta progress call on a Task sitting exactly at
`bytes_transferred = size` with a single completion-observer fires
`move_to_complete_queue` once more: `k` further notify calls append `k`
further entries to the complete queue. -/
lemma zero_delta_fires (i : Nat) (n : Int) :
    ∀ (k : Nat) (now : Int) (t : Download) (m : DownloadManager),
      t.observers = [Ob.completeOb i] → t.size = SizeAttr.val n →
      t.bytes_transferred = n →
      ((runProgress now (List.replicate k 0) t m).2.1.complete_queue).length
        = m.complete_queue.length + k := by
  intro k
  induction k with
  | zero => intro now t m _ _ _; simp [runProgress]
  | succ k ih =>
    intro now t m hobs hsize hbytes
    have ht' : ({ t with bytes_transferred := t.bytes_transferred + 0 } : Download) = t := by
      cases t; simp
    have hnot : Download.notify now t m = (m.move_to_complete_queue t, none) := by
      show notifyFrom now t t.observers m = _
      rw [hobs]
      simp [notifyFrom, Ob.update, completeUpdate, hsize, hbytes]
    have hp : Download.progress now 0 t m = (t, m.move_to_complete_queue t, none) := by
      simp only [Download.progress, ht', hnot]
    simp only [List.replicate_succ, runProgress, hp]
    rw [ih (now + 1) t (m.move_to_complete_queue t) hobs hsize hbytes]
    simp [DownloadManager.move_to_complete_queue]
    omega

/-- C3 amended: the completion-observer has no arm-once guard — its
callback fires on every notify call at which `bytes_transferred` equals
`size` (and only then): a Task held at the completion boundary by
zero-byte deltas fires the callback once per notify, so strictly more
than once per Task is possible. -/
theorem c3_complete_fires_each_time_amended (t : Download) (m : DownloadManager)
    (n : Int) (i : Nat) (now : Int)
    (hsize : t.size = SizeAttr.val n) :
    completeUpdate t m
      = Except.ok (if t.bytes_transferred = n then m.move_to_complete_queue t else m) ∧
    (t.observers = [Ob.completeOb i] → t.bytes_transferred = n → ∀ k : Nat,
      ((runProgress now (List.replicate k 0) t m).2.1.complete_queue).length
        = m.complete_queue.length + k) := by
  constructor
  · simp only [completeUpdate, hsize]
    by_cases hb : t.bytes_transferred = n <;> simp [hb]
  · intro hobs hbytes k
    exact zero_delta_fires i n k now t m hobs hsize hbytes

/-- C3 witness Task: at the completion boundary with one
completion-observer. -/
def c3wTask : Download :=
  { Download.fromContract cSample with
    size := SizeAttr.val 0
    observers := [Ob.completeOb 0] }

/-- Witness for C3 (amended): three zero-delta notifies on a
boundary Task append three complete-queue entries. -/
theorem c3_complete_fires_each_time_amended_witness :
    ((runProgress 5 (List.replicate 3 0) c3wTask (DownloadManager.init 1)).2.1.complete_queue).length
      = (DownloadManager.init 1).complete_queue.length + 3 :=
  (c3_complete_fires_each_time_amended c3wTask (DownloadManager.init 1) 0 0 5 rfl).2
    rfl rfl 3

/-! ## C4 -/

/-- C4 counterexample Task: `_size` was never assigned (the probe
raised) and both manager observers are attached. -/
def c4Task : Download :=
  { Download.fromContract cSample with
    observers := [Ob.completeOb 0, Ob.progressOb 1] }

/-- C4 counterexample: the first observer's `update` raises
(`AttributeError` on reading the unassigned `_size`); `notify` has no
try/except, so the exception propagates out of `notify` and the second
observer is never invoked — the manager state is returned exactly as it
was, with no progress-map write. -/
theorem c4_observer_error_propagates_cex :
    Download.notify 1 c4Task (DownloadManager.init 1)
      = (DownloadManager.init 1, some PyErr.attributeError) ∧
    (DownloadManager.init 1).progress_map = [] :=
  ⟨rfl, rfl⟩

/-- C4 amended: the `for observer in self._observers` loop of `notify`
isolates nothing: as soon as one observer's `update` raises, the
observers after it in attachment order are not invoked (the result does
not depend on them at all) and the exception propagates out of `notify`
into the caller. -/
theorem c4_notify_aborts_amended (now : Int) (t : Download) (m m₁ : DownloadManager)
    (pre post : List Ob) (o : Ob) (e : PyErr)
    (hpre : notifyFrom now t pre m = (m₁, none))
    (ho : Ob.update now o t m₁ = Except.error e) :
    notifyFrom now t (pre ++ o :: post) m = (m₁, some e) := by
  induction pre generalizing m with
  | nil =>
    simp only [notifyFrom] at hpre
    have hm : m = m₁ := congrArg Prod.fst hpre
    subst hm
    simp [notifyFrom, ho]
  | cons p pre ih =>
    simp only [List.cons_append, notifyFrom] at hpre ⊢
    cases hu : Ob.update now p t m with
    | ok m' =>
      rw [hu] at hpre
      exact ih m' hpre
    | error e' =>
      rw [hu] at hpre
      simp at hpre

/-- Witness for C4 (amended): the raising completion-observer is the
first of the two attached observers. -/
theorem c4_notify_aborts_amended_witness :
    notifyFrom 1 c4Task ([] ++ Ob.completeOb 0 :: [Ob.progressOb 1]) (DownloadManager.init 1)
      = (DownloadManager.init 1, some PyErr.attributeError) :=
  c4_notify_aborts_amended 1 c4Task (DownloadManager.init 1) (DownloadManager.init 1)
    [] [Ob.progressOb 1] (Ob.completeOb 0) PyErr.attributeError rfl rfl

/-! ## C5 -/

/-- C5 counterexample Task: one completion-observer already attached. -/
def c5Task : Download := { Download.fromContract cSample with observers := [Ob.completeOb 0] }

/-- C5 counterexample: attaching an observer that is already present
appends a duplicate (`list.append`, not a no-op), and detaching an
absent observer raises `ValueError` (`list.remove`) instead of being a
no-op. -/
theorem c5_attach_detach_cex :
    (c5Task.attach (Ob.completeOb 0)).observers = [Ob.completeOb 0, Ob.completeOb 0] ∧
    ¬ (c5Task.attach (Ob.completeOb 0)).observers = c5Task.observers ∧
    c5Task.detach (Ob.progressOb 1) = Except.error PyErr.valueError := by
  refine ⟨rfl, by decide, rfl⟩

/-- C5 amended: `attach` appends unconditionally, so attaching a
present observer duplicates it and each event then notifies it once per
copy (two completion-observer copies append two complete-queue entries
per notify); `detach` removes the first occurrence of a present observer
and raises `ValueError` when the observer is absent. -/
theorem c5_attach_append_amended (now : Int) (t : Download) (o : Ob) (n : Int) (i : Nat)
    (m : DownloadManager) :
    ((t.attach o).observers = t.observers ++ [o]) ∧
    (o ∉ t.observers → t.detach o = Except.error PyErr.valueError) ∧
    (o ∈ t.observers → t.detach o = Except.ok { t with observers := t.observers.erase o }) ∧
    (t.size = SizeAttr.val n → t.bytes_transferred = n →
      t.observers = [Ob.completeOb i, Ob.completeOb i] →
      (Download.notify now t m).1.complete_queue = m.complete_queue ++ [t, t]) := by
  refine ⟨rfl, ?_, ?_, ?_⟩
  · intro h; simp [Download.detach, h]
  · intro h; simp [Download.detach, h]
  · intro hsize hbytes hobs
    show (notifyFrom now t t.observers m).1.complete_queue = _
    rw [hobs]
    simp [notifyFrom, Ob.update, completeUpdate, hsize, hbytes,
      DownloadManager.move_to_complete_queue, List.append_assoc]

/-- C5 witness Task: two copies of the same completion-observer on a
Task at its completion boundary. -/
def c5wTask : Download :=
  { Download.fromContract cSample with
    size := SizeAttr.val 0
    observers := [Ob.completeOb 0, Ob.completeOb 0] }

/-- Witness for C5 (amended) at a concrete duplicated observer list. -/
theorem c5_attach_append_amended_witness :
    ((c5wTask.attach (Ob.progressOb 1)).observers = c5wTask.observers ++ [Ob.progressOb 1]) ∧
    (Download.notify 0 c5wTask (DownloadManager.init 1)).1.complete_queue
      = (DownloadManager.init 1).complete_queue ++ [c5wTask, c5wTask] := by
  have h := c5_attach_append_amended 0 c5wTask (Ob.progressOb 1) 0 0 (DownloadManager.init 1)
  exact ⟨h.1, h.2.2.2 rfl rfl rfl⟩

/-! ## C8 -/

/-- C8 Task with a zero probed size. -/
def c8zTask : Download :=
  { Download.fromContract cSample with size := SizeAttr.val 0, started := some 0 }

/-- C8 Task whose size probe raised, so `_size` was never assigned. -/
def c8uTask : Download := Download.fromContract cSample

/-- C8 counterexample: with `_size = 0` the completion-observer's
equality comparison is TRUE at `bytes_transferred = 0`, so the callback
IS invoked (the complete queue receives the task); the progress-observer
callback faults with `ZeroDivisionError` instead of omitting the
percentage; and with `_size` never assigned (probe failed) the
completion-observer faults with `AttributeError` instead of comparing
false. -/
theorem c8_size_zero_unset_cex :
    completeUpdate c8zTask (DownloadManager.init 1)
      = Except.ok ((DownloadManager.init 1).move_to_complete_queue c8zTask) ∧
    ((DownloadManager.init 1).move_to_complete_queue c8zTask).complete_queue = [c8zTask] ∧
    DownloadManager.update_progress_map 1 (DownloadManager.init 1) c8zTask
      = Except.error PyErr.zeroDivisionError ∧
    completeUpdate c8uTask (DownloadManager.init 1) = Except.error PyErr.attributeError :=
  ⟨rfl, rfl, rfl, rfl⟩

/-- C8 amended: when `_size` was never assigned (probe raised), both
observer callbacks fault with `AttributeError` on reading it; when the
probe succeeded but returned `None`, the completion comparison is false
and the callback is not invoked; when `_size = 0`, the completion
comparison is true as soon as `bytes_transferred = 0` (the callback
fires) and the progress callback faults with `ZeroDivisionError`. -/
theorem c8_observer_size_cases_amended (t : Download) (m : DownloadManager) (now : Int) :
    (t.size = SizeAttr.unset →
      completeUpdate t m = Except.error PyErr.attributeError ∧
      DownloadManager.update_progress_map now m t = Except.error PyErr.attributeError) ∧
    (t.size = SizeAttr.pynone → completeUpdate t m = Except.ok m) ∧
    (t.size = SizeAttr.val 0 → t.bytes_transferred = 0 →
      completeUpdate t m = Except.ok (m.move_to_complete_queue t)) ∧
    (t.size = SizeAttr.val 0 →
      DownloadManager.update_progress_map now m t = Except.error PyErr.zeroDivisionError) := by
  refine ⟨?_, ?_, ?_, ?_⟩
  · intro h
    exact ⟨by simp [completeUpdate, h], by simp [DownloadManager.update_progress_map, h]⟩
  · intro h; simp [completeUpdate, h]
  · intro h hb; simp [completeUpdate, h, hb]
  · intro h; simp [DownloadManager.update_progress_map, h]

/-- Witness for C8 (amended) at the two concrete Tasks. -/
theorem c8_observer_size_cases_amended_witness :
    completeUpdate c8uTask (DownloadManager.init 1) = Except.error PyErr.attributeError ∧
    completeUpdate c8zTask (DownloadManager.init 1)
      = Except.ok ((DownloadManager.init 1).move_to_complete_queue c8zTask) ∧
    DownloadManager.update_progress_map 1 (DownloadManager.init 1) c8zTask
      = Except.error PyErr.zeroDivisionError := by
  have hu := c8_observer_size_cases_amended c8uTask (DownloadManager.init 1) 1
  have hz := c8_observer_size_cases_amended c8zTask (DownloadManager.init 1) 1
  exact ⟨(hu.1 rfl).1, hz.2.2.1 rfl rfl, hz.2.2.2 rfl⟩

/-! ## C9 -/

/-- C9 counterexample: when the file is absent, `load_config` returns
`None` — not an empty configuration — and `Boto3Config.__init__` then
faults with `AttributeError` on the very first `config.get`, so
construction does not complete with unset attributes. -/
theorem c9_config_missing_cex :
    load_config none = none ∧
    load_config none ≠ some [] ∧
    Boto3Config.init none = Except.error PyErr.attributeError :=
  ⟨rfl, by simp [load_config], rfl⟩

/-- C9 amended: the absence of the file is indeed caught inside
`load_config` (logged, and no exception escapes `load_config` itself),
but the function returns `None` rather than an empty mapping, and
`Boto3Config` construction then raises `AttributeError` calling
`.get` on `None` — construction does not complete.  When the file
exists, construction completes with each attribute populated via
`dict.get`. -/
theorem c9_config_missing_amended (lines : List (List Char)) :
    load_config none = none ∧
    Boto3Config.init none = Except.error PyErr.attributeError ∧
    Boto3Config.init (some lines)
      = Except.ok
          { bucket_name := pyDictGet (configPairs lines) "SPACES_NAME".toList
            access_key := pyDictGet (configPairs lines) "ACCESS_KEY".toList
            secret_key := pyDictGet (configPairs lines) "SECRET_KEY".toList
            region_name := pyDictGet (configPairs lines) "REGION_NAME".toList
            endpoint_url := pyDictGet (configPairs lines) "ENDPOINT".toList } :=
  ⟨rfl, rfl, rfl⟩

/-! ## C10 -/

/-- Text before the first `'='` of a line (its dict key when the line is
well formed). -/
def lineKey (l : List Char) : List Char := (splitOnEq l).headI

/-- Text after the first `'='` of a well-formed line (its dict value). -/
def lineVal (l : List Char) : List Char := (splitOnEq l).tail.headI

/-- `split` never returns an empty piece list. -/
lemma splitOnEq_ne_nil (l : List Char) : splitOnEq l ≠ [] := by
  cases l with
  | nil => simp [splitOnEq]
  | cons ch rest =>
    simp only [splitOnEq]
    by_cases h : ch = '=' <;> simp [h]

/-- A line with `k` occurrences of `'='` splits into `k + 1` pieces. -/
lemma splitOnEq_count (l : List Char) : (splitOnEq l).length = l.count '=' + 1 := by
  induction l with
  | nil => simp [splitOnEq]
  | cons ch rest ih =>
    simp only [splitOnEq]
    by_cases h : ch = '='
    · subst h; simp [List.count_cons, ih]
    · obtain ⟨a, as, hr⟩ : ∃ a as, splitOnEq rest = a :: as := by
        cases hq : splitOnEq rest with
        | nil => exact absurd hq (splitOnEq_ne_nil rest)
        | cons a as => exact ⟨a, as, rfl⟩
      rw [hr] at ih
      simp only [List.length_cons] at ih
      simp [h, hr, List.count_cons]
      omega

/-- A line containing exactly one `'='` splits into its key and value. -/
lemma splitOnEq_eq_pair (l : List Char) (h : l.count '=' = 1) :
    splitOnEq l = [lineKey l, lineVal l] := by
  have hlen : (splitOnEq l).length = 2 := by rw [splitOnEq_count, h]
  obtain ⟨a, b, hab⟩ := List.length_eq_two.mp hlen
  rw [hab]
  simp [lineKey, lineVal, hab]

/-- The accumulated piece list distributes over line-list append. -/
lemma flattenSplits_append (xs ys : List (List Char)) :
    flattenSplits (xs ++ ys) = flattenSplits xs ++ flattenSplits ys := by
  induction xs with
  | nil => rfl
  | cons l ls ih => simp [flattenSplits, ih, List.append_assoc]

/-- Unfolding equation of `pairUp` on two leading elements. -/
lemma pairUp_cons_cons (x y : List Char) (rest : List (List Char)) :
    pairUp (x :: y :: rest) = (x, y) :: pairUp rest := rfl

/-- Pairing distributes over an even-length prefix: the pieces of
well-formed lines pair up among themselves, leaving the rest aligned. -/
lemma pairUp_append_even (ps : List (List Char)) (h : ∀ l ∈ ps, l.count '=' = 1)
    (zs : List (List Char)) :
    pairUp (flattenSplits ps ++ zs) = pairUp (flattenSplits ps) ++ pairUp zs := by
  induction ps with
  | nil => simp [flattenSplits, pairUp]
  | cons l ls ih =>
    have h2 := splitOnEq_eq_pair l (h l (List.mem_cons_self l ls))
    have key : flattenSplits (l :: ls) ++ zs
        = lineKey l :: lineVal l :: (flattenSplits ls ++ zs) := by
      simp [flattenSplits, h2]
    have key2 : flattenSplits (l :: ls) = lineKey l :: lineVal l :: flattenSplits ls := by
      simp [flattenSplits, h2]
    rw [key, key2, pairUp_cons_cons, pairUp_cons_cons,
      ih (fun x hx => h x (List.mem_cons_of_mem l hx))]
    simp [List.cons_append]

/-- On a file whose every line holds exactly one `'='`, the parsed pair
list is exactly one (key, value) pair per line, in order. -/
lemma configPairs_of_wellformed (lines : List (List Char))
    (h : ∀ l ∈ lines, l.count '=' = 1) :
    configPairs lines = lines.map (fun l => (lineKey l, lineVal l)) := by
  induction lines with
  | nil => rfl
  | cons l ls ih =>
    have h2 := splitOnEq_eq_pair l (h l (List.mem_cons_self l ls))
    have key2 : flattenSplits (l :: ls) = lineKey l :: lineVal l :: flattenSplits ls := by
      simp [flattenSplits, h2]
    show pairUp (flattenSplits (l :: ls)) = _
    rw [key2, pairUp_cons_cons]
    simp only [List.map_cons]
    exact congrArg (List.cons _) (ih (fun x hx => h x (List.mem_cons_of_mem l hx)))

/-- Pairing distributes over any even-length prefix, whatever its
origin: an even run of pieces pairs up among itself. -/
lemma pairUp_append_of_even :
    ∀ (n : Nat) (xs zs : List (List Char)), xs.length = n → n % 2 = 0 →
      pairUp (xs ++ zs) = pairUp xs ++ pairUp zs := by
  intro n
  induction n using Nat.strong_induction_on with
  | _ n ih =>
    intro xs zs hlen hpar
    rcases xs with _ | ⟨a, _ | ⟨b, t⟩⟩
    · simp [pairUp]
    · simp only [List.length_singleton] at hlen
      omega
    · have hl : t.length + 1 + 1 = n := by simpa using hlen
      have hpar' : t.length % 2 = 0 := by omega
      have hlt : t.length < n := by omega
      simp only [List.cons_append, pairUp_cons_cons]
      rw [ih t.length hlt t zs rfl hpar']

/-- C10 counterexample malformed line: three `'='` characters. -/
def c10cexBad : List Char := "A=B=C=D".toList

/-- C10 counterexample well-formed following line. -/
def c10cexNext : List Char := "K=V".toList

/-- C10 counterexample: the claim says any line with more than one `'='`
shifts the key/value pairing of all subsequent lines, but a line with
three `'='` splits into four pieces which pair up among themselves —
the following well-formed line still contributes exactly its own
unshifted (key, value) pair. -/
theorem c10_even_pieces_no_shift_cex :
    1 < c10cexBad.count '=' ∧
    configPairs [c10cexBad, c10cexNext]
      = [("A".toList, "B".toList), ("C".toList, "D".toList),
         (lineKey c10cexNext, lineVal c10cexNext)] ∧
    (lineKey c10cexNext, lineVal c10cexNext) = ("K".toList, "V".toList) := by
  refine ⟨by decide, by decide, by decide⟩

/-- C10 amended: for an existing file whose every line contains exactly
one `'='`, `load_config` parses each line into (text before `'='`, text
after `'='`) and the resulting dict resolves a key to the value of the
last line carrying it (later lines overwrite earlier ones).  A
malformed line shifts the pairing of that line and all subsequent lines
exactly when it splits into an odd number of pieces (an even number of
`'='` characters, e.g. exactly two): its final piece is paired with the
first piece of the following text.  A line splitting into an even
number of pieces (an odd number of `'='` characters, e.g. three) pairs
its pieces among themselves and leaves the pairing of every subsequent
line unchanged. -/
theorem c10_load_config_parsing_amended (lines pre post : List (List Char))
    (bad : List Char) (ws : List (List Char)) (w : List Char)
    (h1 : ∀ l ∈ lines, l.count '=' = 1)
    (hpre : ∀ l ∈ pre, l.count '=' = 1)
    (hsplit : splitOnEq bad = ws ++ [w])
    (hws : ws.length % 2 = 0) :
    load_config (some lines) = some (configPairs lines) ∧
    configPairs lines = lines.map (fun l => (lineKey l, lineVal l)) ∧
    (∀ k, pyDictGet (configPairs lines) k
      = ((lines.map (fun l => (lineKey l, lineVal l))).reverse).lookup k) ∧
    configPairs (pre ++ bad :: post)
      = configPairs pre ++ pairUp ws ++ pairUp (w :: flattenSplits post) ∧
    (∀ bad2 : List Char, (splitOnEq bad2).length % 2 = 0 →
      configPairs (pre ++ bad2 :: post)
        = configPairs pre ++ pairUp (splitOnEq bad2) ++ configPairs post) := by
  have hA := configPairs_of_wellformed lines h1
  refine ⟨rfl, hA, ?_, ?_, ?_⟩
  · intro k
    rw [pyDictGet, hA]
  · simp only [configPairs, flattenSplits_append]
    simp only [flattenSplits, hsplit]
    rw [pairUp_append_even pre hpre]
    have hws' : (ws ++ [w]) ++ flattenSplits post = ws ++ (w :: flattenSplits post) := by
      simp [List.append_assoc]
    rw [hws', pairUp_append_of_even ws.length ws (w :: flattenSplits post) rfl hws,
      List.append_assoc]
  · intro bad2 h2
    simp only [configPairs, flattenSplits_append]
    simp only [flattenSplits]
    rw [pairUp_append_even pre hpre,
      pairUp_append_of_even (splitOnEq bad2).length (splitOnEq bad2)
        (flattenSplits post) rfl h2,
      List.append_assoc]

/-- C10 witness file: three well-formed lines with a duplicate key. -/
def c10Lines : List (List Char) :=
  ["SPACES_NAME=karim-storage".toList, "ACCESS_KEY=abc".toList, "SPACES_NAME=other".toList]

/-- C10 witness prefix for the pairing parts. -/
def c10Pre : List (List Char) := ["REGION_NAME=ams3".toList]

/-- C10 witness malformed line with two `'='` characters (three pieces,
the shifting case). -/
def c10Bad : List Char := "A=B=C".toList

/-- C10 witness suffix for the pairing parts. -/
def c10Post : List (List Char) := ["SECRET_KEY=s".toList]

/-- Witness for C10 (amended) at a concrete file, exercising both the
shifting (two `'='`) and non-shifting (three `'='`) malformed lines. -/
theorem c10_load_config_parsing_amended_witness :
    configPairs c10Lines = c10Lines.map (fun l => (lineKey l, lineVal l)) ∧
    pyDictGet (configPairs c10Lines) "SPACES_NAME".toList
      = ((c10Lines.map (fun l => (lineKey l, lineVal l))).reverse).lookup
          "SPACES_NAME".toList ∧
    configPairs (c10Pre ++ c10Bad :: c10Post)
      = configPairs c10Pre ++ pairUp ["A".toList, "B".toList]
          ++ pairUp ("C".toList :: flattenSplits c10Post) ∧
    configPairs (c10Pre ++ c10cexBad :: c10Post)
      = configPairs c10Pre ++ pairUp (splitOnEq c10cexBad) ++ configPairs c10Post := by
  have h := c10_load_config_parsing_amended c10Lines c10Pre c10Post c10Bad
    ["A".toList, "B".toList] "C".toList (by decide) (by decide) (by decide) (by decide)
  exact ⟨h.2.1, h.2.2.1 _, h.2.2.2.1, h.2.2.2.2 c10cexBad (by decide)⟩

end SpacesDownload
